import Mathlib

/-!
Verification of the redis-proxy implementation (src/redis-proxy.py).

The program is an asyncio TCP proxy: a `Server` accepts client
connections, each connection is handled by a `Client` object that opens
a connection to the upstream Redis server, authenticates with
`AUTH <password>\r\n`, and then relays bytes in both directions with two
`Pipe.flow` tasks.  We embed the byte-level behaviour of `Pipe.flow` and
the event-level behaviour of one session (`Client.authenticate`,
`Client.connect`, `Server.handle_server`) as executable Lean functions,
and prove the specified properties about them.
-/

namespace RedisProxy

/-- Byte strings are modelled as lists of natural byte values. -/
abbrev Chunk := List Nat

/-- Encoding of the ASCII strings the proxy sends (Python
`str.encode("utf-8")`): each character code point becomes one byte.
All strings the program encodes are ASCII, where UTF-8 is the identity
on code points. -/
def enc (s : String) : Chunk := s.data.map Char.toNat

/-- Python `str` conversion of an optional value, as performed by the
f-string `f"AUTH \x7bpassword\x7d\r\n"` in `Client.authenticate`: the absent
password (`None`) renders as the four characters `None`. -/
def pyStr : Option String → String
  | none => "None"
  | some s => s

/-- The exact upstream reply `Client.authenticate` accepts (line 30). -/
def okReply : Chunk := enc "+OK\r\n"

/-- The fixed rejection message `Client.authenticate` writes to the
proxy client on a bad reply (line 33). -/
def wrongPass : Chunk := enc "-WRONGPASS unable to auto-authenticate\r\n"

/-- The exact bytes `Client.authenticate` writes upstream (line 25). -/
def authRequest (password : Option String) : Chunk :=
  enc ("AUTH " ++ pyStr password ++ "\r\n")

/-! ### Pipe.flow (lines 78-95)

`Pipe.flow` repeatedly reads a chunk from its `StreamReader` and writes
it, with a `drain`, to its `StreamWriter`; it returns when a read
yields zero bytes or `at_eof()` holds, and a `finally` block closes the
writer on every exit.  We model one execution by the list of chunks the
reader delivers (list exhaustion models `at_eof()` becoming true; an
explicit empty chunk models a read returning `b""` at end of stream)
and record the observable I/O events. -/

/-- Observable events of one `Pipe.flow` execution.  `closeSrc` is an
event the code could in principle perform on its source stream; the
source never has `close` called on it in `Pipe.flow`, which the
theorems below make precise. -/
inductive Ev
  | read (c : Chunk)
  | write (c : Chunk)
  | drain
  | closeDest
  | closeSrc
  deriving DecidableEq, Repr

/-- Event trace of a `Pipe.flow` execution that is never interrupted:
the loop of lines 82-91 followed by the `finally` of lines 93-95. -/
def flowTrace : List Chunk → List Ev
  | [] => [Ev.closeDest]
  | c :: rest =>
    if c = [] then [Ev.read [], Ev.closeDest]
    else Ev.read c :: Ev.write c :: Ev.drain :: flowTrace rest

/-- Event trace of a `Pipe.flow` execution in which an exception (I/O
failure or cancellation) is delivered at the first await point after
`n` awaits have completed.  The await points are `reader.read` (line
83) and `writer.drain` (line 91), where asyncio delivers cancellation
and read/drain failures; a synchronous failure of `writer.write`
unwinds through the same `finally`.  If the flow finishes within `n`
awaits the run is the normal one.  The `finally` block (lines 93-95)
runs on every exit, so `closeDest` is always emitted (`writer.close()`
precedes the `await wait_closed()` inside the `finally`, so a second
interrupt there cannot suppress it). -/
def flowTraceI : List Chunk → Nat → List Ev
  | [], _ => [Ev.closeDest]
  | _ :: _, 0 => [Ev.closeDest]
  | c :: rest, n + 1 =>
    if c = [] then [Ev.read [], Ev.closeDest]
    else if n = 0 then [Ev.read c, Ev.write c, Ev.closeDest]
    else Ev.read c :: Ev.write c :: Ev.drain :: flowTraceI rest (n - 1)

/-- The chunks written by a trace, in order. -/
def writesOf (t : List Ev) : List Chunk :=
  t.filterMap fun e => match e with | Ev.write c => some c | _ => none

/-- The chunks read by a trace, in order. -/
def readsOf (t : List Ev) : List Chunk :=
  t.filterMap fun e => match e with | Ev.read c => some c | _ => none

/-- Scanning helper: the first read-or-drain event of the trace is not
a read (used to say a pending write is drained before the next read). -/
def noReadBeforeDrain : List Ev → Bool
  | [] => true
  | Ev.read _ :: _ => false
  | Ev.drain :: _ => true
  | _ :: rest => noReadBeforeDrain rest

/-- Every write in the trace is followed by a drain before any later
read begins. -/
def flushedBeforeNextRead : List Ev → Bool
  | [] => true
  | Ev.write _ :: rest => noReadBeforeDrain rest && flushedBeforeNextRead rest
  | _ :: rest => flushedBeforeNextRead rest

/-- Whether an event is a write. -/
def isWrite : Ev → Bool
  | Ev.write _ => true
  | _ => false

/-- After a read that returns zero bytes, the trace contains no
further write. -/
def noWriteAfterEmptyRead : List Ev → Bool
  | [] => true
  | Ev.read c :: rest =>
    if c = [] then rest.all (fun e => !isWrite e) else noWriteAfterEmptyRead rest
  | _ :: rest => noWriteAfterEmptyRead rest

/-- Every write carries exactly the chunk of the immediately preceding
read, and that chunk is non-empty. -/
def eachWriteFollowsItsRead : List Ev → Bool
  | [] => true
  | Ev.write _ :: _ => false
  | Ev.read c :: Ev.write d :: rest =>
    decide (c = d) && !c.isEmpty && eachWriteFollowsItsRead rest
  | _ :: rest => eachWriteFollowsItsRead rest

theorem writesOf_flowTrace (cs : List Chunk) :
    writesOf (flowTrace cs) = cs.takeWhile (fun c => !c.isEmpty) := by
  induction cs with
  | nil => simp [flowTrace, writesOf]
  | cons c rest ih =>
    by_cases hc : c = []
    · simp [flowTrace, hc, writesOf]
    · simp [flowTrace, hc, writesOf, List.takeWhile_cons] at ih ⊢
      simpa [writesOf] using ih

theorem readsOf_flowTrace_flatten (cs : List Chunk) :
    (readsOf (flowTrace cs)).flatten = (writesOf (flowTrace cs)).flatten := by
  induction cs with
  | nil => simp [flowTrace, readsOf, writesOf]
  | cons c rest ih =>
    by_cases hc : c = []
    · simp [flowTrace, hc, readsOf, writesOf]
    · simpa [flowTrace, hc, readsOf, writesOf] using ih

theorem writesOf_eq_takeWhile_readsOf (cs : List Chunk) :
    writesOf (flowTrace cs) = (readsOf (flowTrace cs)).takeWhile (fun c => !c.isEmpty) := by
  induction cs with
  | nil => simp [flowTrace, readsOf, writesOf]
  | cons c rest ih =>
    by_cases hc : c = []
    · simp [flowTrace, hc, readsOf, writesOf]
    · simpa [flowTrace, hc, readsOf, writesOf, List.takeWhile_cons] using ih

theorem flushedBeforeNextRead_flowTrace (cs : List Chunk) :
    flushedBeforeNextRead (flowTrace cs) = true := by
  induction cs with
  | nil => simp [flowTrace, flushedBeforeNextRead]
  | cons c rest ih =>
    by_cases hc : c = []
    · simp [flowTrace, hc, flushedBeforeNextRead]
    · simp [flowTrace, hc, flushedBeforeNextRead, noReadBeforeDrain, ih]

theorem noWriteAfterEmptyRead_flowTrace (cs : List Chunk) :
    noWriteAfterEmptyRead (flowTrace cs) = true := by
  induction cs with
  | nil => simp [flowTrace, noWriteAfterEmptyRead]
  | cons c rest ih =>
    by_cases hc : c = []
    · simp [flowTrace, hc, noWriteAfterEmptyRead, isWrite]
    · simp [flowTrace, hc, noWriteAfterEmptyRead, ih]

theorem getLast_flowTrace (cs : List Chunk) :
    (flowTrace cs).getLast? = some Ev.closeDest := by
  induction cs with
  | nil => simp [flowTrace]
  | cons c rest ih =>
    by_cases hc : c = []
    · simp [flowTrace, hc]
    · simp [flowTrace, hc, List.getLast?_cons_cons, List.getLast?_cons, ih]

theorem count_closeDest_flowTrace (cs : List Chunk) :
    (flowTrace cs).count Ev.closeDest = 1 := by
  induction cs with
  | nil => simp [flowTrace]
  | cons c rest ih =>
    by_cases hc : c = []
    · simp [flowTrace, hc, List.count_cons]
    · simp [flowTrace, hc, List.count_cons, ih]

theorem closeSrc_not_mem_flowTrace (cs : List Chunk) :
    Ev.closeSrc ∉ flowTrace cs := by
  induction cs with
  | nil => simp [flowTrace]
  | cons c rest ih =>
    by_cases hc : c = []
    · simp [flowTrace, hc]
    · simp [flowTrace, hc, ih]

theorem count_closeDest_flowTraceI (cs : List Chunk) (n : Nat) :
    (flowTraceI cs n).count Ev.closeDest = 1 := by
  induction cs generalizing n with
  | nil => simp [flowTraceI]
  | cons c rest ih =>
    cases n with
    | zero => simp [flowTraceI]
    | succ m =>
      by_cases hc : c = []
      · simp [flowTraceI, hc, List.count_cons]
      · by_cases hm : m = 0
        · simp [flowTraceI, hc, hm, List.count_cons]
        · simp [flowTraceI, hc, hm, List.count_cons, ih]

theorem getLast_flowTraceI (cs : List Chunk) (n : Nat) :
    (flowTraceI cs n).getLast? = some Ev.closeDest := by
  induction cs generalizing n with
  | nil => simp [flowTraceI]
  | cons c rest ih =>
    cases n with
    | zero => simp [flowTraceI]
    | succ m =>
      by_cases hc : c = []
      · simp [flowTraceI, hc]
      · by_cases hm : m = 0
        · simp [flowTraceI, hc, hm]
        · simp [flowTraceI, hc, hm, List.getLast?_cons_cons, List.getLast?_cons, ih]

theorem closeSrc_not_mem_flowTraceI (cs : List Chunk) (n : Nat) :
    Ev.closeSrc ∉ flowTraceI cs n := by
  induction cs generalizing n with
  | nil => simp [flowTraceI]
  | cons c rest ih =>
    cases n with
    | zero => simp [flowTraceI]
    | succ m =>
      by_cases hc : c = []
      · simp [flowTraceI, hc]
      · by_cases hm : m = 0
        · simp [flowTraceI, hc, hm]
        · simp [flowTraceI, hc, hm, ih]

theorem eachWriteFollowsItsRead_flowTrace (cs : List Chunk) :
    eachWriteFollowsItsRead (flowTrace cs) = true := by
  induction cs with
  | nil => simp [flowTrace, eachWriteFollowsItsRead]
  | cons c rest ih =>
    by_cases hc : c = []
    · simp [flowTrace, hc, eachWriteFollowsItsRead]
    · simp [flowTrace, hc, eachWriteFollowsItsRead, ih]

/-- C2: For every sequence of chunks delivered by the source stream,
`Pipe.flow` writes to the destination exactly the concatenation of the
bytes read, in the order read (the writes are the reads up to the
end-of-stream marker), each chunk is fully flushed (`drain`) to the
destination before the next read begins, and it exits successfully,
writing nothing further, when a read returns zero bytes (the trace ends
with the cleanup close of the destination). -/
theorem flow_transparent (cs : List Chunk) :
    (writesOf (flowTrace cs)).flatten = (readsOf (flowTrace cs)).flatten ∧
    writesOf (flowTrace cs) = (readsOf (flowTrace cs)).takeWhile (fun c => !c.isEmpty) ∧
    flushedBeforeNextRead (flowTrace cs) = true ∧
    noWriteAfterEmptyRead (flowTrace cs) = true ∧
    (flowTrace cs).getLast? = some Ev.closeDest :=
  ⟨(readsOf_flowTrace_flatten cs).symm, writesOf_eq_takeWhile_readsOf cs,
    flushedBeforeNextRead_flowTrace cs, noWriteAfterEmptyRead_flowTrace cs,
    getLast_flowTrace cs⟩

/-- C5: On every exit path of `Pipe.flow` — normal end-of-stream
(`flowTrace`), or an I/O failure or external cancellation delivered at
any await point (`flowTraceI` at any interrupt index) — the destination
stream is closed, exactly once and as the final action, and the source
stream is never closed by the relay itself. -/
theorem flow_cleanup_every_path (cs : List Chunk) (n : Nat) :
    ((flowTrace cs).count Ev.closeDest = 1 ∧
      (flowTrace cs).getLast? = some Ev.closeDest ∧
      Ev.closeSrc ∉ flowTrace cs) ∧
    ((flowTraceI cs n).count Ev.closeDest = 1 ∧
      (flowTraceI cs n).getLast? = some Ev.closeDest ∧
      Ev.closeSrc ∉ flowTraceI cs n) :=
  ⟨⟨count_closeDest_flowTrace cs, getLast_flowTrace cs, closeSrc_not_mem_flowTrace cs⟩,
    ⟨count_closeDest_flowTraceI cs n, getLast_flowTraceI cs n,
      closeSrc_not_mem_flowTraceI cs n⟩⟩

/-- C10: `Pipe.flow` never writes a zero-length chunk to its
destination: every chunk it writes is non-empty, and each write carries
exactly the chunk returned by the immediately preceding read. -/
theorem flow_writes_nonempty (cs : List Chunk) :
    (∀ c ∈ writesOf (flowTrace cs), c ≠ []) ∧
    eachWriteFollowsItsRead (flowTrace cs) = true := by
  refine ⟨?_, eachWriteFollowsItsRead_flowTrace cs⟩
  intro c hc
  rw [writesOf_flowTrace] at hc
  have := List.mem_takeWhile_imp hc
  simpa using this

/-! ### Session level: Client.authenticate (lines 21-37),
Client.connect (lines 39-67), Server.handle_server (lines 113-123)

We model one session as the list of observable events the coroutine
chain produces.  The parameters are the configured password, whether
the upstream is reachable, the single chunk the upstream returns to the
`AUTH` request, and which relay direction finishes first.  The relayed
byte traffic itself is covered by the `Pipe.flow` model above; here the
relay phase is abstracted to its lifecycle events.

Teardown semantics (lines 57-67): `asyncio.wait(...,
return_when=FIRST_COMPLETED)` returns the done and pending tasks; the
pending tasks are cancelled; `await asyncio.gather(*pending)` without
`return_exceptions=True` re-raises the `CancelledError` with which a
cancelled child finishes (after waiting for that child to unwind
through the `finally` of `Pipe.flow`).  Consequently, whenever one
relay is actually cancelled, the `CancelledError` propagates out of
`Client.connect` before lines 65-67 run.  In `Server.handle_server`,
`except Exception` does not catch `CancelledError` (a `BaseException`
in Python 3.8+), so on that path lines 122-123 are skipped as well.
Only when both relays complete in the same event-loop pass (`pending`
is empty) does `gather` return and lines 65-67 and 122-123 execute. -/

/-- Observable events of one proxy session. -/
inductive SEv
  | openUpstream
  | connectFail
  | upWrite (c : Chunk)
  | upDrain
  | upRead (c : Chunk)
  | clientWrite (c : Chunk)
  | clientDrain
  | raiseAuthFailed
  | startRelays
  | cancelPending
  | upCloseByPipe
  | upCloseBySession
  | clientCloseByPipe
  | clientCloseByHandler
  | logError
  | raiseCancelled
  deriving DecidableEq, Repr

/-- Which relay of a session finishes first: the client-to-upstream
pipe (`c2s`), the upstream-to-client pipe (`s2c`), or both in the same
event-loop pass (so that `pending` is empty). -/
inductive FirstDone
  | c2sFirst
  | s2cFirst
  | both
  deriving DecidableEq, Repr

/-- The per-session environment beyond the configuration: whether the
upstream connection can be opened, and if so, the bytes the single
`reader.read(1024)` of the authentication reply returns and which relay
finishes first. -/
inductive Scenario
  | unreachable
  | connected (reply : Chunk) (fd : FirstDone)
  deriving DecidableEq, Repr

/-- Model of `Client.authenticate` (lines 21-37): write
`AUTH <password>\r\n` upstream, drain, perform one read of the reply;
if the reply is not exactly `+OK\r\n`, write the fixed `-WRONGPASS`
message to the proxy client, drain it, and raise `RuntimeError`.  The
returned flag is true when authentication succeeded. -/
def authenticate (password : Option String) (reply : Chunk) : List SEv × Bool :=
  let pre := [SEv.upWrite (authRequest password), SEv.upDrain, SEv.upRead reply]
  if reply = okReply then (pre, true)
  else (pre ++ [SEv.clientWrite wrongPass, SEv.clientDrain, SEv.raiseAuthFailed], false)

/-- How a coroutine finished: returned normally, raised an
`Exception`-class error, or raised `CancelledError`. -/
inductive Outcome
  | ok
  | raisedExc
  | raisedCancelled
  deriving DecidableEq, Repr

/-- Model of `Client.connect` (lines 39-67): open the upstream
connection (raising on failure), authenticate unconditionally, then
start the two relays and run the race-and-cancel teardown described
above.  `upCloseByPipe` and `clientCloseByPipe` are the destination
closes performed by the `finally` of the corresponding `Pipe.flow`;
`upCloseBySession` is the explicit `writer.close()` of line 66. -/
def connectTrace (password : Option String) : Scenario → List SEv × Outcome
  | Scenario.unreachable => ([SEv.connectFail], Outcome.raisedExc)
  | Scenario.connected reply fd =>
    let auth := authenticate password reply
    if auth.2 then
      match fd with
      | FirstDone.c2sFirst =>
        (SEv.openUpstream :: auth.1 ++
          [SEv.startRelays, SEv.upCloseByPipe, SEv.cancelPending,
            SEv.clientCloseByPipe, SEv.raiseCancelled],
          Outcome.raisedCancelled)
      | FirstDone.s2cFirst =>
        (SEv.openUpstream :: auth.1 ++
          [SEv.startRelays, SEv.clientCloseByPipe, SEv.cancelPending,
            SEv.upCloseByPipe, SEv.raiseCancelled],
          Outcome.raisedCancelled)
      | FirstDone.both =>
        (SEv.openUpstream :: auth.1 ++
          [SEv.startRelays, SEv.upCloseByPipe, SEv.clientCloseByPipe,
            SEv.upCloseBySession],
          Outcome.ok)
    else (SEv.openUpstream :: auth.1, Outcome.raisedExc)

/-- Model of `Server.handle_server` (lines 113-123): await the
session; `except Exception` catches `Exception`-class errors and logs
them, after which the client writer is closed (lines 122-123); a
`CancelledError` is not an `Exception`, so it skips both the handler
and lines 122-123 and escapes the handler task. -/
def handleServer (password : Option String) (s : Scenario) : List SEv :=
  let r := connectTrace password s
  match r.2 with
  | Outcome.ok => r.1 ++ [SEv.clientCloseByHandler]
  | Outcome.raisedExc => r.1 ++ [SEv.logError, SEv.clientCloseByHandler]
  | Outcome.raisedCancelled => r.1

/-- Model of the accept loop of `Server.serve_forever` (lines
108-111): each accepted connection is handled by an independent
`handle_server` task; the listener trace is the independent combination
of the per-session traces. -/
def listener (password : Option String) (sessions : List Scenario) : List (List SEv) :=
  sessions.map (handleServer password)

/-- The first chunk written to the upstream connection in a session
trace, if any. -/
def firstUpWrite (t : List SEv) : Option Chunk :=
  t.findSome? fun e => match e with | SEv.upWrite c => some c | _ => none

/-- Scanning helper: among the relay start and the upstream
authentication-reply read, the read comes first in the trace. -/
def noRelayBeforeAuthReply : List SEv → Bool
  | [] => true
  | SEv.startRelays :: _ => false
  | SEv.upRead _ :: _ => true
  | _ :: rest => noRelayBeforeAuthReply rest

/-- Whether an event closes the upstream connection (either the
`Pipe.flow` cleanup of the client-to-upstream relay or the explicit
close of line 66). -/
def isUpClose : SEv → Bool
  | SEv.upCloseByPipe => true
  | SEv.upCloseBySession => true
  | _ => false

/-- Number of times a session trace closes the upstream connection. -/
def upCloseCount (t : List SEv) : Nat := (t.filter isUpClose).length

/-- The chunks written to the proxy client in a session trace. -/
def clientWritesOf (t : List SEv) : List Chunk :=
  t.filterMap fun e => match e with | SEv.clientWrite c => some c | _ => none

/-- C1 counterexample: with no upstream credential configured
(`--upstream-password` absent, so `password` is `None`), a session that
reaches the upstream nevertheless sends an authentication request: the
f-string of line 25 renders the absent credential and the proxy writes
the bytes `AUTH None\r\n` to the upstream before relaying starts. -/
theorem auth_sent_without_credential :
    SEv.upWrite (enc "AUTH None\r\n") ∈
      handleServer none (Scenario.connected okReply FirstDone.both) ∧
    firstUpWrite (handleServer none (Scenario.connected okReply FirstDone.both))
      = some (enc "AUTH None\r\n") := by
  constructor
  · decide
  · decide

/-- C1 (amended): the authentication step is never skipped.  For every
configuration — also when no credential is configured, in which case
the request carries the rendered credential `None` — a session that
opens the upstream connection first writes `AUTH <credential>\r\n` to
the upstream as its very first upstream write, and no relay starts
before the authentication reply has been read. -/
theorem auth_never_skipped (password : Option String) (reply : Chunk) (fd : FirstDone) :
    firstUpWrite (handleServer password (Scenario.connected reply fd))
      = some (authRequest password) ∧
    noRelayBeforeAuthReply (handleServer password (Scenario.connected reply fd)) = true ∧
    authRequest none = enc "AUTH None\r\n" := by
  refine ⟨?_, ?_, by decide⟩ <;>
  · by_cases hr : reply = okReply
    · cases fd <;>
        simp [handleServer, connectTrace, authenticate, hr, firstUpWrite,
          noRelayBeforeAuthReply, List.findSome?]
    · simp [handleServer, connectTrace, authenticate, hr, firstUpWrite,
        noRelayBeforeAuthReply, List.findSome?]

/-- C3: for every configured credential `p`, authentication writes
exactly the bytes `AUTH p\r\n` to the upstream (and nothing else), then
performs exactly one read of the reply, and succeeds if and only if
that read returned exactly the bytes `+OK\r\n`. -/
theorem authenticate_exact_exchange (p : String) (reply : Chunk) :
    ((authenticate (some p) reply).1.filterMap
        fun e => match e with | SEv.upWrite c => some c | _ => none)
      = [enc ("AUTH " ++ p ++ "\r\n")] ∧
    ((authenticate (some p) reply).1.filterMap
        fun e => match e with | SEv.upRead c => some c | _ => none)
      = [reply] ∧
    ((authenticate (some p) reply).2 = true ↔ reply = okReply) := by
  by_cases hr : reply = okReply <;>
    simp [authenticate, hr, authRequest, pyStr]

/-- C4: whenever the upstream authentication reply differs from
`+OK\r\n`, the session writes the single fixed message
`-WRONGPASS unable to auto-authenticate\r\n` to the client — it is the
only chunk ever written to the client in such a session — immediately
drains it, and only afterwards does the failure propagate
(`raiseAuthFailed`) and the client connection get closed by the
handler; the client never sees a bare disconnect. -/
theorem wrongpass_before_close (password : Option String) (reply : Chunk)
    (fd : FirstDone) (hr : reply ≠ okReply) :
    clientWritesOf (handleServer password (Scenario.connected reply fd)) = [wrongPass] ∧
    ∃ i j k, i < j ∧ j < k ∧
      (handleServer password (Scenario.connected reply fd))[i]?
        = some (SEv.clientWrite wrongPass) ∧
      (handleServer password (Scenario.connected reply fd))[i + 1]?
        = some SEv.clientDrain ∧
      (handleServer password (Scenario.connected reply fd))[j]?
        = some SEv.raiseAuthFailed ∧
      (handleServer password (Scenario.connected reply fd))[k]?
        = some SEv.clientCloseByHandler := by
  refine ⟨?_, 4, 6, 8, by omega, by omega, ?_, ?_, ?_, ?_⟩ <;>
    simp [handleServer, connectTrace, authenticate, hr, clientWritesOf]

/-- C4 witness: the theorem instantiated at the configured credential
`secret`, the concrete upstream reply `-ERR invalid password\r\n` and
an arbitrary relay outcome. -/
theorem wrongpass_before_close_witness :
    enc "-ERR invalid password\r\n" ≠ okReply ∧
    (clientWritesOf (handleServer (some "secret")
        (Scenario.connected (enc "-ERR invalid password\r\n") FirstDone.both))
      = [wrongPass] ∧
    ∃ i j k, i < j ∧ j < k ∧
      (handleServer (some "secret")
          (Scenario.connected (enc "-ERR invalid password\r\n") FirstDone.both))[i]?
        = some (SEv.clientWrite wrongPass) ∧
      (handleServer (some "secret")
          (Scenario.connected (enc "-ERR invalid password\r\n") FirstDone.both))[i + 1]?
        = some SEv.clientDrain ∧
      (handleServer (some "secret")
          (Scenario.connected (enc "-ERR invalid password\r\n") FirstDone.both))[j]?
        = some SEv.raiseAuthFailed ∧
      (handleServer (some "secret")
          (Scenario.connected (enc "-ERR invalid password\r\n") FirstDone.both))[k]?
        = some SEv.clientCloseByHandler) :=
  ⟨by decide,
    wrongpass_before_close (some "secret") (enc "-ERR invalid password\r\n")
      FirstDone.both (by decide)⟩

/-- C6: evaluation of the code at the failing input (a session whose
client-to-upstream relay finishes first).  The session does cancel the
still-running relay and waits for it to unwind, but
`await asyncio.gather(*pending)` then re-raises the cancelled relay
`CancelledError`, so the explicit close of the upstream connection at
lines 65-67 never executes: the trace ends with the escaping
cancellation, contains no `upCloseBySession`, and the error is not even
logged by the handler. -/
theorem session_explicit_close_skipped :
    SEv.cancelPending ∈
      handleServer (some "secret") (Scenario.connected okReply FirstDone.c2sFirst) ∧
    SEv.clientCloseByPipe ∈
      handleServer (some "secret") (Scenario.connected okReply FirstDone.c2sFirst) ∧
    SEv.upCloseBySession ∉
      handleServer (some "secret") (Scenario.connected okReply FirstDone.c2sFirst) ∧
    (handleServer (some "secret")
        (Scenario.connected okReply FirstDone.c2sFirst)).getLast?
      = some SEv.raiseCancelled ∧
    SEv.logError ∉
      handleServer (some "secret") (Scenario.connected okReply FirstDone.c2sFirst) := by
  decide

/-- C7 counterexample: on the authentication-failure path the upstream
connection is never closed.  With credential `hunter2` and upstream
reply `-ERR wrong password\r\n`, the session trace contains no upstream
close at all, contradicting the claim that the `UpstreamConnection` is
closed (exactly once) on the authentication-failure path. -/
theorem upstream_not_closed_on_auth_failure :
    upCloseCount (handleServer (some "hunter2")
      (Scenario.connected (enc "-ERR wrong password\r\n") FirstDone.both)) = 0 := by
  decide

/-- C7 (amended): in every session that reaches the relaying phase the
upstream connection is closed at least once — exactly once when one
relay finishes first (by the cancelled or finished pipe cleanup; the
explicit close of line 66 is skipped), and twice (idempotently) when
both relays finish together — but on the authentication-failure path,
and when the upstream is unreachable, it is never closed. -/
theorem upstream_close_accounting (password : Option String) (fd : FirstDone)
    (reply : Chunk) (hr : reply ≠ okReply) :
    1 ≤ upCloseCount (handleServer password (Scenario.connected okReply fd)) ∧
    (fd ≠ FirstDone.both →
      upCloseCount (handleServer password (Scenario.connected okReply fd)) = 1) ∧
    upCloseCount (handleServer password (Scenario.connected reply fd)) = 0 ∧
    upCloseCount (handleServer password Scenario.unreachable) = 0 := by
  refine ⟨?_, ?_, ?_, ?_⟩
  · cases fd <;>
      simp [handleServer, connectTrace, authenticate, upCloseCount, isUpClose]
  · intro hfd
    cases fd with
    | c2sFirst =>
      simp [handleServer, connectTrace, authenticate, upCloseCount, isUpClose]
    | s2cFirst =>
      simp [handleServer, connectTrace, authenticate, upCloseCount, isUpClose]
    | both => exact absurd rfl hfd
  · cases fd <;>
      simp [handleServer, connectTrace, authenticate, hr, upCloseCount, isUpClose]
  · simp [handleServer, connectTrace, upCloseCount, isUpClose]

/-- C7 witness: the amended accounting instantiated at credential
`pw`, a client-first teardown, and the concrete rejected reply. -/
theorem upstream_close_accounting_witness :
    enc "-ERR nope\r\n" ≠ okReply ∧
    (1 ≤ upCloseCount (handleServer (some "pw")
        (Scenario.connected okReply FirstDone.c2sFirst)) ∧
      (FirstDone.c2sFirst ≠ FirstDone.both →
        upCloseCount (handleServer (some "pw")
          (Scenario.connected okReply FirstDone.c2sFirst)) = 1) ∧
      upCloseCount (handleServer (some "pw")
        (Scenario.connected (enc "-ERR nope\r\n") FirstDone.c2sFirst)) = 0 ∧
      upCloseCount (handleServer (some "pw") Scenario.unreachable) = 0) :=
  ⟨by decide,
    upstream_close_accounting (some "pw") FirstDone.c2sFirst
      (enc "-ERR nope\r\n") (by decide)⟩

/-- C8 counterexample: a session that reached the relaying phase and
whose upstream-to-client relay finished first raises `CancelledError`
out of the session coroutine; the handler boundary of
`Server.handle_server` does not catch it (`except Exception` does not
match `CancelledError`), so the error is not logged and the handler
close of the client connection is skipped, contradicting the claim
that every error raised out of a session is caught, logged, and
followed by the boundary closing the client connection. -/
theorem cancelled_error_escapes_handler :
    (handleServer (some "pw") (Scenario.connected okReply FirstDone.s2cFirst)).getLast?
      = some SEv.raiseCancelled ∧
    SEv.logError ∉
      handleServer (some "pw") (Scenario.connected okReply FirstDone.s2cFirst) ∧
    SEv.clientCloseByHandler ∉
      handleServer (some "pw") (Scenario.connected okReply FirstDone.s2cFirst) := by
  decide

/-- C8 (amended): `Exception`-class errors raised out of a session —
upstream unreachable, authentication rejected — are caught at the
handler boundary, logged, and the boundary then closes the client
connection as its final action.  A session that reached relaying and
tore down by cancellation instead raises `CancelledError`, which the
boundary does not catch: no log, no handler close (the client
connection was already closed by the relay cleanup).  In all cases
sessions are independent: changing one accepted connection scenario
leaves every other session trace of the listener unchanged. -/
theorem handler_error_isolation (password : Option String) (reply : Chunk)
    (fd : FirstDone) (scns : List Scenario) (i j : Nat) (s : Scenario)
    (hr : reply ≠ okReply) (hfd : fd ≠ FirstDone.both) (hij : i ≠ j) :
    (SEv.logError ∈ handleServer password Scenario.unreachable ∧
      (handleServer password Scenario.unreachable).getLast?
        = some SEv.clientCloseByHandler) ∧
    (SEv.logError ∈ handleServer password (Scenario.connected reply fd) ∧
      (handleServer password (Scenario.connected reply fd)).getLast?
        = some SEv.clientCloseByHandler) ∧
    (SEv.clientCloseByPipe ∈ handleServer password (Scenario.connected okReply fd) ∧
      SEv.logError ∉ handleServer password (Scenario.connected okReply fd) ∧
      SEv.clientCloseByHandler ∉ handleServer password (Scenario.connected okReply fd) ∧
      (handleServer password (Scenario.connected okReply fd)).getLast?
        = some SEv.raiseCancelled) ∧
    (listener password (scns.set i s))[j]? = (listener password scns)[j]? := by
  refine ⟨?_, ?_, ?_, ?_⟩
  · simp [handleServer, connectTrace]
  · cases fd <;>
      simp [handleServer, connectTrace, authenticate, hr]
  · cases fd with
    | c2sFirst =>
      simp [handleServer, connectTrace, authenticate]
    | s2cFirst =>
      simp [handleServer, connectTrace, authenticate]
    | both => exact absurd rfl hfd
  · simp [listener, List.getElem?_map, List.getElem?_set_ne hij]

/-- C8 witness: the amended boundary behaviour instantiated at
credential `admin`, the rejected reply `-ERR denied\r\n`, an
upstream-first teardown, and a two-session listener in which session 0
is replaced while session 1 is observed. -/
theorem handler_error_isolation_witness :
    enc "-ERR denied\r\n" ≠ okReply ∧
    FirstDone.s2cFirst ≠ FirstDone.both ∧
    (0 : Nat) ≠ 1 ∧
    ((SEv.logError ∈ handleServer (some "admin") Scenario.unreachable ∧
      (handleServer (some "admin") Scenario.unreachable).getLast?
        = some SEv.clientCloseByHandler) ∧
    (SEv.logError ∈ handleServer (some "admin")
        (Scenario.connected (enc "-ERR denied\r\n") FirstDone.s2cFirst) ∧
      (handleServer (some "admin")
          (Scenario.connected (enc "-ERR denied\r\n") FirstDone.s2cFirst)).getLast?
        = some SEv.clientCloseByHandler) ∧
    (SEv.clientCloseByPipe ∈ handleServer (some "admin")
        (Scenario.connected okReply FirstDone.s2cFirst) ∧
      SEv.logError ∉ handleServer (some "admin")
        (Scenario.connected okReply FirstDone.s2cFirst) ∧
      SEv.clientCloseByHandler ∉ handleServer (some "admin")
        (Scenario.connected okReply FirstDone.s2cFirst) ∧
      (handleServer (some "admin")
          (Scenario.connected okReply FirstDone.s2cFirst)).getLast?
        = some SEv.raiseCancelled) ∧
    (listener (some "admin")
        (([Scenario.unreachable,
            Scenario.connected okReply FirstDone.both]).set 0
          (Scenario.connected (enc "-ERR denied\r\n") FirstDone.both)))[1]?
      = (listener (some "admin")
          [Scenario.unreachable, Scenario.connected okReply FirstDone.both])[1]?) :=
  ⟨by decide, by decide, by decide,
    handler_error_isolation (some "admin") (enc "-ERR denied\r\n")
      FirstDone.s2cFirst
      [Scenario.unreachable, Scenario.connected okReply FirstDone.both]
      0 1 (Scenario.connected (enc "-ERR denied\r\n") FirstDone.both)
      (by decide) (by decide) (by decide)⟩

/-! ### Configuration defaults: cli (lines 154-190) and main (lines 143-151)

`argparse` supplies `--listen-address` with default `127.0.0.1` and
`--listen-port` with default `"6379"` (a string: the argument has no
`type=int`); `main` always passes both resolved values to
`Server.serve_forever(args.listen_address, args.listen_port)`, so the
defaults in the `serve_forever` signature itself (`127.0.0.1`, `6378`)
are never used.  The port string is resolved by `getaddrinfo`, which
interprets a numeric service string in decimal. -/

/-- The resolved argument values the program runs with. -/
structure Args where
  upstream_address : Option String
  upstream_password : Option String
  upstream_port : Nat
  listen_address : String
  listen_port : String
  deriving DecidableEq, Repr

/-- The argument values produced by `cli` when no flag is supplied on
the command line (lines 154-190). -/
def cliDefaults : Args :=
  { upstream_address := none
    upstream_password := none
    upstream_port := 6379
    listen_address := "127.0.0.1"
    listen_port := "6379" }

/-- The address and port string `main` passes to
`Server.serve_forever`, which binds the listening socket to them
(lines 108-111 and 151). -/
def mainBind (a : Args) : String × String := (a.listen_address, a.listen_port)

/-- Decimal interpretation of a numeric service string, as performed
by `getaddrinfo` when `asyncio.start_server` resolves the bind port. -/
def parsePort (s : String) : Nat :=
  s.data.foldl (fun acc c => acc * 10 + (c.toNat - 48)) 0

/-- C9: when no listen address or listen port is supplied by the
configuration, the server binds its listening socket to address
`127.0.0.1` and to the default port string, which denotes port 6379. -/
theorem default_bind_address_port :
    mainBind cliDefaults = ("127.0.0.1", "6379") ∧
    (mainBind cliDefaults).1 = "127.0.0.1" ∧
    parsePort (mainBind cliDefaults).2 = 6379 := by
  refine ⟨rfl, rfl, ?_⟩
  decide
